import Mathlib

set_option linter.unreachableTactic false
set_option linter.unusedTactic false
set_option linter.unnecessarySeqFocus false

/-!
Verification of the human-alert app's alert lifecycle, inbox, realtime channel,
geodesy and notification-burst logic, embedded shallowly from the TypeScript
sources (home screen, alert store, socket service, emergency sound service,
map-screen helpers).
-/

namespace HumanAlert

/-- Alert record as held in the store (`Alert` in alertStore) and surfaced in
the incoming-alert banner. -/
structure AlertData where
  alert_id : String
  latitude : ℚ
  longitude : ℚ
  distance : ℚ
  bearing : ℚ
  timestamp : String
  current_radius : ℚ
  responder_count : Nat
  deriving DecidableEq, Repr

/-- MyAlert record: the alert this device itself triggered. -/
structure MyAlert where
  alert_id : String
  latitude : ℚ
  longitude : ℚ
  deriving DecidableEq, Repr

/-- Location produced by the location hook. -/
structure LocationData where
  latitude : ℚ
  longitude : ℚ
  heading : Option ℚ
  deriving DecidableEq, Repr

/-- Combined mutable state of the home screen and the alert store that the
handlers of the home screen read and write: local component state
(isProcessing, incomingAlert, alertStartTime, alertTimeRemaining) together
with the store fields the claims concern. -/
structure HomeState where
  isProcessing : Bool
  incomingAlert : Option AlertData
  myActiveAlert : Option MyAlert
  nearbyAlerts : List AlertData
  selectedAlert : Option AlertData
  canTrigger : Bool
  cooldownRemaining : Nat
  error : Option String
  alertStartTime : Option Nat
  alertTimeRemaining : Nat
  deriving DecidableEq, Repr

/-- Store reset action (`reset` in alertStore): clears alert state and
restores trigger defaults. -/
def storeReset (s : HomeState) : HomeState :=
  { s with myActiveAlert := none, nearbyAlerts := [], selectedAlert := none,
           canTrigger := true, cooldownRemaining := 0, error := none }

/-- Payload of an alert_received socket event, with the optional fields the
handler defaults (bearing to 0, current_radius to 300). -/
structure AlertReceivedPayload where
  alert_id : String
  latitude : ℚ
  longitude : ℚ
  distance : ℚ
  bearing : Option ℚ
  timestamp : String
  current_radius : Option ℚ
  deriving DecidableEq, Repr

/-- AlertData record the onAlertReceived handler builds from the event
payload, defaulting bearing to 0, current_radius to 300 and
responder_count to 0. -/
def surfacedAlertOf (data : AlertReceivedPayload) : AlertData :=
  { alert_id := data.alert_id
    latitude := data.latitude
    longitude := data.longitude
    distance := data.distance
    bearing := data.bearing.getD 0
    timestamp := data.timestamp
    current_radius := data.current_radius.getD 300
    responder_count := 0 }

/-- Handler registered with socketService.onAlertReceived on the home screen:
unconditionally surfaces the received alert (setIncomingAlert). -/
def onAlertReceivedHandler (data : AlertReceivedPayload) (s : HomeState) : HomeState :=
  { s with incomingAlert := some (surfacedAlertOf data) }

/-- Handler registered with socketService.onAlertEnded on the home screen:
clears the device's own alert (with a full store reset) when the id matches,
clears a matching surfaced incoming alert, and drops the alert from
nearbyAlerts. -/
def onAlertEndedHandler (ended_id : String) (s : HomeState) : HomeState :=
  let s1 := if s.myActiveAlert.map MyAlert.alert_id = some ended_id then
      storeReset { s with myActiveAlert := none }
    else s
  let s2 := if s1.incomingAlert.map AlertData.alert_id = some ended_id then
      { s1 with incomingAlert := none }
    else s1
  { s2 with nearbyAlerts := s2.nearbyAlerts.filter (fun a => a.alert_id ≠ ended_id) }

/-- Poll path of updateAndFetchData: stores the fetched nearby alerts and
surfaces the first one only when nothing is surfaced and the device has no
active alert of its own. -/
def pollAdmit (alerts : List AlertData) (s : HomeState) : HomeState :=
  let s1 := { s with nearbyAlerts := alerts }
  if alerts ≠ [] ∧ s.myActiveAlert = none ∧ s.incomingAlert = none then
    { s1 with incomingAlert := alerts.head? }
  else s1

/-- handleDismissAlert: clears the surfaced incoming alert. -/
def handleDismissAlert (s : HomeState) : HomeState :=
  { s with incomingAlert := none }

/-- Result of a press of the emergency button, one constructor per exit path
of handleEmergencyPress. -/
inductive TriggerResult where
  | busy
  | alreadyActive
  | locationRequired
  | cooldownActive
  | locationUnavailable
  | requestFailed (msg : String)
  | success (alert_id : String)
  deriving DecidableEq, Repr

/-- handleEmergencyPress: guards (in source order) on a press already being
processed, an alert already active, missing location permission, and an
active cooldown; then requires a current location; on a successful server
response records the new active alert, its start instant, and starts the 60 s
cooldown. The asynchronous location fix and server response are passed in as
parameters. -/
def handleEmergencyPress (hasPermission : Bool) (location : Option LocationData)
    (server : Except String String) (now : Nat) (s : HomeState) :
    TriggerResult × HomeState :=
  if s.isProcessing then (.busy, s)
  else if s.myActiveAlert.isSome then (.alreadyActive, s)
  else if !hasPermission then (.locationRequired, s)
  else if !s.canTrigger then (.cooldownActive, s)
  else
    match location with
    | none => (.locationUnavailable, s)
    | some loc =>
      match server with
      | .error e => (.requestFailed e, s)
      | .ok alertId =>
        (.success alertId,
         { s with myActiveAlert := some ⟨alertId, loc.latitude, loc.longitude⟩,
                  alertStartTime := some now,
                  canTrigger := false,
                  cooldownRemaining := 60 })

/-- Cooldown timer interval body: decrements the remaining cooldown, clamped
at 0, and re-enables the trigger on the tick that exhausts it; the effect is
not armed when no cooldown remains. -/
def cooldownTick (s : HomeState) : HomeState :=
  if s.cooldownRemaining = 0 then s
  else { s with cooldownRemaining := s.cooldownRemaining - 1,
                canTrigger := if s.cooldownRemaining ≤ 1 then true else s.canTrigger }

/-- Alert duration in seconds (20 minutes). -/
def ALERT_DURATION : Nat := 1200

/-- Alert countdown interval body, at a current clock of now milliseconds:
recomputes the remaining time as max(0, ALERT_DURATION - elapsed) and, when it
hits 0, clears the active alert, its start time, and resets the store. -/
def alertCountdownTick (now : Nat) (s : HomeState) : HomeState :=
  match s.myActiveAlert, s.alertStartTime with
  | some _, some start =>
    let elapsed := (now - start) / 1000
    let remaining := ALERT_DURATION - elapsed
    if remaining = 0 then
      storeReset { s with alertTimeRemaining := remaining, myActiveAlert := none,
                          alertStartTime := none }
    else { s with alertTimeRemaining := remaining }
  | _, _ => { s with alertTimeRemaining := 0 }

/-- getDirectionText (map screen; an identical copy lives in AlertCard up to
the null-guard on bearing): octant by round(bearing/45) mod 8, with the
truncated remainder of the host language. -/
def getDirectionText (bearing : ℚ) : String :=
  let directions : List String := ["N", "NE", "E", "SE", "S", "SW", "W", "NW"]
  let b : ℚ := if bearing = 0 then 0 else bearing
  let index : ℤ := (round (b / 45)).tmod 8
  directions.getD index.toNat "undefined"

/-- Room on the realtime channel: device-scoped or alert-scoped. -/
inductive Room where
  | device (id : String)
  | alert (id : String)
  deriving DecidableEq, Repr

/-- State of the SocketService singleton together with the server-side room
membership of its current connection. The class itself stores only the
socket, the deviceId and a reconnect-attempt counter; it keeps no record of
alert subscriptions. joinedRooms is the set of rooms the current transport
connection has joined, which the server forgets when the transport drops. -/
structure SocketState where
  hasSocket : Bool
  connected : Bool
  deviceId : Option String
  reconnectAttempts : Nat
  joinedRooms : List Room
  deriving DecidableEq, Repr

/-- Fresh SocketService: no socket, no device id. -/
def SocketState.init : SocketState :=
  { hasSocket := false, connected := false, deviceId := none,
    reconnectAttempts := 0, joinedRooms := [] }

/-- SocketService.joinDeviceRoom: emits join_device_room when a socket and a
device id exist, entering the device-scoped room. -/
def joinDeviceRoom (s : SocketState) : SocketState :=
  match s.deviceId with
  | some id =>
    if s.hasSocket then { s with joinedRooms := s.joinedRooms ++ [Room.device id] }
    else s
  | none => s

/-- SocketService.connect: no-op when already connected for the same device
id; otherwise tears down any existing socket and creates a fresh, not yet
connected one for the given id. -/
def socketConnect (deviceId : String) (s : SocketState) : SocketState :=
  if s.hasSocket ∧ s.connected ∧ s.deviceId = some deviceId then s
  else
    { hasSocket := true, connected := false, deviceId := some deviceId,
      reconnectAttempts := s.reconnectAttempts, joinedRooms := [] }

/-- Connect handler, fired on every successful connect and reconnect of the
socket: the fresh transport connection starts in no rooms, the attempt
counter resets, and the handler rejoins only the device room (the reconnect
handler registered alongside it likewise calls only joinDeviceRoom). -/
def onConnectEvent (s : SocketState) : SocketState :=
  if s.hasSocket then
    joinDeviceRoom { s with connected := true, reconnectAttempts := 0, joinedRooms := [] }
  else s

/-- Disconnect handler: the transport drops, and with it the server-side
membership of every room this connection had joined. -/
def onDisconnectEvent (s : SocketState) : SocketState :=
  if s.hasSocket then { s with connected := false, joinedRooms := [] }
  else s

/-- SocketService.subscribeToAlert: emits subscribe_alert when a socket
exists, entering the per-alert room; nothing is recorded client-side. -/
def subscribeToAlert (alertId : String) (s : SocketState) : SocketState :=
  if s.hasSocket then { s with joinedRooms := s.joinedRooms ++ [Room.alert alertId] }
  else s

/-- State of the emergency sound module: module-level isPlaying flag, the
loaded sound object, and the instant (ms) at which the 4 s cleanup timeout
scheduled by the current burst fires. -/
structure SoundState where
  isInitialized : Bool
  isPlaying : Bool
  hasSound : Bool
  cleanupAt : Nat
  deriving DecidableEq, Repr

/-- Initial state of the emergency sound module. -/
def SoundState.init : SoundState :=
  { isInitialized := false, isPlaying := false, hasSound := false, cleanupAt := 0 }

/-- playEmergencySoundAsync at a current clock of now milliseconds: dropped
when a burst is already in flight; otherwise marks the burst playing, loads
the sound, and schedules the cleanup timeout 4000 ms out. Returns whether a
new burst started. -/
def playEmergencySoundAsync (now : Nat) (s : SoundState) : SoundState × Bool :=
  if s.isPlaying then (s, false)
  else
    ({ s with isInitialized := true, isPlaying := true, hasSound := true,
              cleanupAt := now + 4000 }, true)

/-- playAlertBurst: fires the vibration pattern (a side effect outside this
model) and starts the asynchronous sound burst. -/
def playAlertBurst (now : Nat) (s : SoundState) : SoundState × Bool :=
  playEmergencySoundAsync now s

/-- Cleanup timeout scheduled by playEmergencySoundAsync, firing at
s.cleanupAt: stops and unloads the sound and clears isPlaying, regardless of
how the underlying playback ended. -/
def soundCleanupFire (s : SoundState) : SoundState :=
  { s with isPlaying := false, hasSound := false }

namespace Geodesy

open Real

/-- Truncation toward zero, as the host language coerces a real to an
integer. -/
noncomputable def truncR (x : ℝ) : ℤ := if 0 ≤ x then ⌊x⌋ else ⌈x⌉

/-- Remainder carrying the sign of the dividend, as the % operator of the
host language on numbers. -/
noncomputable def jsMod (a b : ℝ) : ℝ := a - b * truncR (a / b)

/-- Math.atan2 of the host language, modelled over the reals. -/
noncomputable def atan2 (y x : ℝ) : ℝ :=
  if 0 < x then arctan (y / x)
  else if x < 0 ∧ 0 ≤ y then arctan (y / x) + π
  else if x < 0 ∧ y < 0 then arctan (y / x) - π
  else if x = 0 ∧ 0 < y then π / 2
  else if x = 0 ∧ y < 0 then -(π / 2)
  else 0

/-- calculateDistance (map screen): haversine great-circle distance on a
sphere of radius 6,371,000 m, with the guard returning 0 when any of the four
coordinate components is the falsy value 0. -/
noncomputable def calculateDistance (lat1 lon1 lat2 lon2 : ℝ) : ℝ :=
  if lat1 = 0 ∨ lon1 = 0 ∨ lat2 = 0 ∨ lon2 = 0 then 0
  else
    let R : ℝ := 6371000
    let dLat := (lat2 - lat1) * π / 180
    let dLon := (lon2 - lon1) * π / 180
    let a := sin (dLat / 2) * sin (dLat / 2) +
      cos (lat1 * π / 180) * cos (lat2 * π / 180) * sin (dLon / 2) * sin (dLon / 2)
    let c := 2 * atan2 (sqrt a) (sqrt (1 - a))
    R * c

/-- calculateBearing (map screen): initial bearing from point 1 to point 2 in
degrees, normalised into [0,360) by (bearing + 360) % 360, with the same
zero-coordinate guard as calculateDistance. -/
noncomputable def calculateBearing (lat1 lon1 lat2 lon2 : ℝ) : ℝ :=
  if lat1 = 0 ∨ lon1 = 0 ∨ lat2 = 0 ∨ lon2 = 0 then 0
  else
    let dLon := (lon2 - lon1) * π / 180
    let lat1Rad := lat1 * π / 180
    let lat2Rad := lat2 * π / 180
    let x := sin dLon * cos lat2Rad
    let y := cos lat1Rad * sin lat2Rad - sin lat1Rad * cos lat2Rad * cos dLon
    let bearing := atan2 x y * (180 / π)
    jsMod (bearing + 360) 360

end Geodesy

/-! Sample states used to instantiate the theorems at concrete inputs. -/

/-- Sample alert originating from another device, 500 m away. -/
def sampleAlertA : AlertData :=
  { alert_id := "alert-A", latitude := 9, longitude := 7, distance := 500,
    bearing := 0, timestamp := "t0", current_radius := 300, responder_count := 0 }

/-- Sample alert_received payload for a second, closer alert. -/
def samplePayloadB : AlertReceivedPayload :=
  { alert_id := "alert-B", latitude := 9, longitude := 7, distance := 100,
    bearing := none, timestamp := "t1", current_radius := none }

/-- Sample home state in which sampleAlertA is the surfaced incoming alert
and the device itself is idle. -/
def sampleSurfacedState : HomeState :=
  { isProcessing := false, incomingAlert := some sampleAlertA,
    myActiveAlert := none, nearbyAlerts := [sampleAlertA], selectedAlert := none,
    canTrigger := true, cooldownRemaining := 0, error := none,
    alertStartTime := none, alertTimeRemaining := 0 }

/-- Sample idle home state: nothing surfaced, no active alert, no cooldown. -/
def sampleIdleState : HomeState :=
  { isProcessing := false, incomingAlert := none,
    myActiveAlert := none, nearbyAlerts := [], selectedAlert := none,
    canTrigger := true, cooldownRemaining := 0, error := none,
    alertStartTime := none, alertTimeRemaining := 0 }

/-- Claim C1: after a disconnect and a successful reconnect, the channel was
specified to rejoin the device room and every previously subscribed alert
room; the connect/reconnect handlers however call only joinDeviceRoom, and
the service records no alert subscriptions, so a session that had subscribed
to an alert room ends up after the reconnect in the device room only — the
joined-room set differs from the one before the disconnect. -/
theorem reconnect_drops_alert_rooms :
    (subscribeToAlert "alert-1" (onConnectEvent (socketConnect "device-1" SocketState.init))).joinedRooms
      = [Room.device "device-1", Room.alert "alert-1"] ∧
    (onConnectEvent (onDisconnectEvent
        (subscribeToAlert "alert-1" (onConnectEvent (socketConnect "device-1" SocketState.init))))).joinedRooms
      = [Room.device "device-1"] ∧
    (onConnectEvent (onDisconnectEvent
        (subscribeToAlert "alert-1" (onConnectEvent (socketConnect "device-1" SocketState.init))))).joinedRooms
      ≠ (subscribeToAlert "alert-1" (onConnectEvent (socketConnect "device-1" SocketState.init))).joinedRooms := by
  refine ⟨rfl, rfl, ?_⟩
  decide

/-- Claim C2, counterexample: with sampleAlertA surfaced, the alert_received
handler applied to a different (closer) alert replaces the surfaced alert
instead of leaving it unchanged. -/
theorem surfaced_alert_replaced_counterexample :
    (onAlertReceivedHandler samplePayloadB sampleSurfacedState).incomingAlert
      ≠ sampleSurfacedState.incomingAlert := by
  simp [onAlertReceivedHandler, surfacedAlertOf, samplePayloadB, sampleSurfacedState,
    sampleAlertA]

/-- Claim C2 (amended): an alert admitted by the periodic poll never replaces
an already surfaced alert, but an alert delivered through the realtime
alert_received handler unconditionally replaces the surfaced alert — same
alert_id or a closer one included; after a dismiss, a fresh event carrying
the same alert_id resurfaces it, through either path. -/
theorem surfaced_alert_policy :
    (∀ (alerts : List AlertData) (s : HomeState) (a : AlertData),
       s.incomingAlert = some a → (pollAdmit alerts s).incomingAlert = some a) ∧
    (∀ (data : AlertReceivedPayload) (s : HomeState),
       (onAlertReceivedHandler data s).incomingAlert = some (surfacedAlertOf data)) ∧
    (∀ (data : AlertReceivedPayload) (s : HomeState),
       (onAlertReceivedHandler data (handleDismissAlert s)).incomingAlert
         = some (surfacedAlertOf data)) ∧
    (∀ (a : AlertData) (l : List AlertData) (s : HomeState),
       s.myActiveAlert = none →
       (pollAdmit (a :: l) (handleDismissAlert s)).incomingAlert = some a) := by
  refine ⟨?_, ?_, ?_, ?_⟩
  · intro alerts s a ha
    simp [pollAdmit, ha]
  · intro data s
    simp [onAlertReceivedHandler]
  · intro data s
    simp [onAlertReceivedHandler]
  · intro a l s hA
    simp [pollAdmit, handleDismissAlert, hA]

/-- Claim C2 witness: the amended policy evaluated at sampleSurfacedState and
sampleAlertA. -/
theorem surfaced_alert_policy_witness :
    (pollAdmit [sampleAlertA] sampleSurfacedState).incomingAlert = some sampleAlertA ∧
    (pollAdmit [sampleAlertA] (handleDismissAlert sampleSurfacedState)).incomingAlert
      = some sampleAlertA :=
  ⟨surfaced_alert_policy.1 [sampleAlertA] sampleSurfacedState sampleAlertA rfl,
   surfaced_alert_policy.2.2.2 sampleAlertA [] sampleSurfacedState rfl⟩

/-- Claim C7: a burst call while none is in flight starts a burst and
schedules its cleanup 4000 ms out; a second call while the burst is in
flight — in particular within 1 s — is dropped with the state unchanged, so
exactly one burst is active; the scheduled cleanup clears the burst
regardless of how playback completed, after which a subsequent call starts a
new burst. -/
theorem burst_at_most_one (t t2 t3 : Nat) (s : SoundState)
    (h : s.isPlaying = false) :
    (playAlertBurst t s).2 = true ∧
    (playAlertBurst t s).1.isPlaying = true ∧
    (playAlertBurst t s).1.cleanupAt = t + 4000 ∧
    playAlertBurst t2 (playAlertBurst t s).1 = ((playAlertBurst t s).1, false) ∧
    (soundCleanupFire (playAlertBurst t s).1).isPlaying = false ∧
    (playAlertBurst t3 (soundCleanupFire (playAlertBurst t s).1)).2 = true := by
  simp [playAlertBurst, playEmergencySoundAsync, soundCleanupFire, h]

/-- Claim C7 witness: the burst discipline evaluated from the initial sound
state, with the second call 500 ms after the first. -/
theorem burst_at_most_one_witness :
    (playAlertBurst 0 SoundState.init).2 = true ∧
    (playAlertBurst 0 SoundState.init).1.isPlaying = true ∧
    (playAlertBurst 0 SoundState.init).1.cleanupAt = 0 + 4000 ∧
    playAlertBurst 500 (playAlertBurst 0 SoundState.init).1
      = ((playAlertBurst 0 SoundState.init).1, false) ∧
    (soundCleanupFire (playAlertBurst 0 SoundState.init).1).isPlaying = false ∧
    (playAlertBurst 5000 (soundCleanupFire (playAlertBurst 0 SoundState.init).1)).2 = true :=
  burst_at_most_one 0 500 5000 SoundState.init rfl

/-- Projection of the alert_ended handler on the device's own alert: cleared
when the ended id matches, untouched otherwise. -/
lemma onAlertEnded_myActiveAlert (ended_id : String) (s : HomeState) :
    (onAlertEndedHandler ended_id s).myActiveAlert =
      if s.myActiveAlert.map MyAlert.alert_id = some ended_id then none
      else s.myActiveAlert := by
  simp only [onAlertEndedHandler, storeReset]
  split_ifs <;> rfl

/-- Projection of the alert_ended handler on the trigger fields: reset when
the ended id matches the device's own alert, untouched otherwise. -/
lemma onAlertEnded_trigger_fields (ended_id : String) (s : HomeState) :
    ((onAlertEndedHandler ended_id s).canTrigger,
      (onAlertEndedHandler ended_id s).cooldownRemaining) =
      if s.myActiveAlert.map MyAlert.alert_id = some ended_id then (true, 0)
      else (s.canTrigger, s.cooldownRemaining) := by
  simp only [onAlertEndedHandler, storeReset]
  split_ifs <;> rfl

/-- Claim C4: the alert_ended handler with a non-matching alert_id leaves the
device's own alert and its trigger state untouched; with a matching id it
unconditionally clears the own alert (Idle); on an already-Idle machine it
keeps the machine Idle; and a repeated call with the same id is idempotent on
the whole state. -/
theorem onRemoteEnded_spec (ended_id : String) (s : HomeState) :
    (s.myActiveAlert.map MyAlert.alert_id ≠ some ended_id →
       (onAlertEndedHandler ended_id s).myActiveAlert = s.myActiveAlert ∧
       (onAlertEndedHandler ended_id s).canTrigger = s.canTrigger ∧
       (onAlertEndedHandler ended_id s).cooldownRemaining = s.cooldownRemaining) ∧
    (s.myActiveAlert.map MyAlert.alert_id = some ended_id →
       (onAlertEndedHandler ended_id s).myActiveAlert = none) ∧
    (s.myActiveAlert = none → (onAlertEndedHandler ended_id s).myActiveAlert = none) ∧
    onAlertEndedHandler ended_id (onAlertEndedHandler ended_id s)
      = onAlertEndedHandler ended_id s := by
  have hact := onAlertEnded_myActiveAlert ended_id s
  have htrig := onAlertEnded_trigger_fields ended_id s
  refine ⟨?_, ?_, ?_, ?_⟩
  · intro h
    rw [if_neg h] at hact htrig
    exact ⟨hact, congrArg Prod.fst htrig, congrArg Prod.snd htrig⟩
  · intro h
    rw [if_pos h] at hact
    exact hact
  · intro h
    rw [hact, h]
    split <;> rfl
  · simp only [onAlertEndedHandler, storeReset]
    split_ifs <;> simp_all [List.filter_filter]

/-- Sample home state with an own active alert and a cooldown in flight. -/
def sampleActiveState : HomeState :=
  { isProcessing := false, incomingAlert := none,
    myActiveAlert := some { alert_id := "alert-mine", latitude := 9, longitude := 7 },
    nearbyAlerts := [], selectedAlert := none, canTrigger := false,
    cooldownRemaining := 42, error := none, alertStartTime := some 1000,
    alertTimeRemaining := 1200 }

/-- Claim C4 witness: the handler evaluated on sampleActiveState with the
matching and with a non-matching alert id. -/
theorem onRemoteEnded_spec_witness :
    (onAlertEndedHandler "alert-mine" sampleActiveState).myActiveAlert = none ∧
    (onAlertEndedHandler "alert-other" sampleActiveState).myActiveAlert
      = sampleActiveState.myActiveAlert :=
  ⟨(onRemoteEnded_spec "alert-mine" sampleActiveState).2.1 rfl,
   ((onRemoteEnded_spec "alert-other" sampleActiveState).1 (by decide)).1⟩

/-- Claim C3: with no press in flight, the emergency press returns without a
transition when an alert is already active or a cooldown is in effect (the
two PreconditionFailed exits of the spec), refuses with the
location-unavailable exit when no location fix is obtainable, and from Idle
with a known location and a confirmed server response transitions to Active
with the returned alert_id. -/
theorem trigger_spec (hasPermission : Bool) (location : Option LocationData)
    (server : Except String String) (now : Nat) (s : HomeState)
    (hp : s.isProcessing = false) :
    (∀ a, s.myActiveAlert = some a →
       handleEmergencyPress hasPermission location server now s
         = (TriggerResult.alreadyActive, s)) ∧
    (s.myActiveAlert = none → hasPermission = true → s.canTrigger = false →
       handleEmergencyPress hasPermission location server now s
         = (TriggerResult.cooldownActive, s)) ∧
    (s.myActiveAlert = none → hasPermission = true → s.canTrigger = true →
       location = none →
       handleEmergencyPress hasPermission location server now s
         = (TriggerResult.locationUnavailable, s)) ∧
    (∀ loc alertId, s.myActiveAlert = none → hasPermission = true →
       s.canTrigger = true → location = some loc → server = Except.ok alertId →
       handleEmergencyPress hasPermission location server now s
         = (TriggerResult.success alertId,
            { s with myActiveAlert := some (MyAlert.mk alertId loc.latitude loc.longitude),
                     alertStartTime := some now, canTrigger := false,
                     cooldownRemaining := 60 })) := by
  refine ⟨?_, ?_, ?_, ?_⟩
  · intro a ha
    simp [handleEmergencyPress, hp, ha]
  · intro hA hperm hc
    simp [handleEmergencyPress, hp, hA, hperm, hc]
  · intro hA hperm hc hl
    simp [handleEmergencyPress, hp, hA, hperm, hc, hl]
  · intro loc alertId hA hperm hc hl hs
    simp [handleEmergencyPress, hp, hA, hperm, hc, hl, hs]

/-- Sample location fix. -/
def sampleLocation : LocationData :=
  { latitude := 9.0579, longitude := 7.4951, heading := none }

/-- Home state right after the sample trigger confirmed. -/
def sampleTriggeredState : HomeState :=
  { sampleIdleState with
      myActiveAlert := some (MyAlert.mk "alert-new" sampleLocation.latitude
        sampleLocation.longitude),
      alertStartTime := some 123, canTrigger := false, cooldownRemaining := 60 }

/-- Claim C3 witness: from the sample idle state a trigger succeeds and goes
Active; a second press on the resulting state is refused with the state
unchanged. -/
theorem trigger_spec_witness :
    handleEmergencyPress true (some sampleLocation) (Except.ok "alert-new") 123
        sampleIdleState
      = (TriggerResult.success "alert-new", sampleTriggeredState) ∧
    handleEmergencyPress true (some sampleLocation) (Except.ok "alert-2") 200
        sampleTriggeredState
      = (TriggerResult.alreadyActive, sampleTriggeredState) :=
  ⟨(trigger_spec true (some sampleLocation) (Except.ok "alert-new") 123
      sampleIdleState rfl).2.2.2 sampleLocation "alert-new" rfl rfl rfl rfl rfl,
   (trigger_spec true (some sampleLocation) (Except.ok "alert-2") 200
      sampleTriggeredState rfl).1
     (MyAlert.mk "alert-new" sampleLocation.latitude sampleLocation.longitude) rfl⟩

/-- Behaviour of k iterations of the cooldown tick from any state with the
trigger disabled: the remaining cooldown is the truncated difference, the
trigger re-enables exactly once a positive cooldown has been exhausted, and
the alert-countdown fields are untouched. -/
lemma cooldownTick_iter (s : HomeState) (hc : s.canTrigger = false) :
    ∀ k : Nat,
    ((cooldownTick^[k]) s).cooldownRemaining = s.cooldownRemaining - k ∧
    (((cooldownTick^[k]) s).canTrigger = true ↔
        (s.cooldownRemaining ≤ k ∧ s.cooldownRemaining ≠ 0)) ∧
    ((cooldownTick^[k]) s).myActiveAlert = s.myActiveAlert ∧
    ((cooldownTick^[k]) s).alertStartTime = s.alertStartTime ∧
    ((cooldownTick^[k]) s).alertTimeRemaining = s.alertTimeRemaining := by
  intro k
  induction k with
  | zero =>
    have h : ¬(s.cooldownRemaining ≤ 0 ∧ s.cooldownRemaining ≠ 0) := by omega
    simp [hc, h]
  | succ k ih =>
    obtain ⟨h1, h2, h3, h4, h5⟩ := ih
    rw [Function.iterate_succ_apply']
    by_cases h0 : ((cooldownTick^[k]) s).cooldownRemaining = 0
    · have heq : cooldownTick ((cooldownTick^[k]) s) = (cooldownTick^[k]) s := by
        simp [cooldownTick, h0]
      rw [heq]
      refine ⟨by omega, ?_, h3, h4, h5⟩
      rw [h2]
      omega
    · have heq : cooldownTick ((cooldownTick^[k]) s) =
          { (cooldownTick^[k]) s with
              cooldownRemaining := ((cooldownTick^[k]) s).cooldownRemaining - 1,
              canTrigger := if ((cooldownTick^[k]) s).cooldownRemaining ≤ 1 then true
                else ((cooldownTick^[k]) s).canTrigger } := by
        simp [cooldownTick, h0]
      rw [heq]
      refine ⟨by simp; omega, ?_, h3, h4, h5⟩
      by_cases hle : ((cooldownTick^[k]) s).cooldownRemaining ≤ 1
      · rw [if_pos hle]
        simp
        omega
      · rw [if_neg hle]
        simp only [HomeState.mk.injEq]
        simp
        rw [h2]
        omega

/-- Claim C5: a confirmed trigger immediately starts a 60 s cooldown with
the trigger disabled; from such a state, after k one-second ticks the
remaining cooldown is 60 - k (clamped at 0, so never negative), the trigger
stays disabled while the remaining cooldown is positive and re-enables
exactly on the tick that brings it to 0; the cooldown ticks never touch the
alert-countdown fields, so both timers run independently. -/
theorem cooldown_spec (s : HomeState) (hc : s.canTrigger = false)
    (hr : s.cooldownRemaining = 60) :
    (∀ (loc : LocationData) (alertId : String) (now : Nat) (s0 : HomeState),
       s0.isProcessing = false → s0.myActiveAlert = none → s0.canTrigger = true →
       (handleEmergencyPress true (some loc) (Except.ok alertId) now s0).2.cooldownRemaining
           = 60 ∧
       (handleEmergencyPress true (some loc) (Except.ok alertId) now s0).2.canTrigger
           = false) ∧
    (∀ k : Nat, ((cooldownTick^[k]) s).cooldownRemaining = 60 - k) ∧
    (∀ k : Nat, (((cooldownTick^[k]) s).canTrigger = true ↔ 60 ≤ k)) ∧
    (∀ k : Nat, k < 60 → 0 < ((cooldownTick^[k]) s).cooldownRemaining ∧
       ((cooldownTick^[k]) s).canTrigger = false) ∧
    (∀ k : Nat, ((cooldownTick^[k]) s).myActiveAlert = s.myActiveAlert ∧
       ((cooldownTick^[k]) s).alertStartTime = s.alertStartTime ∧
       ((cooldownTick^[k]) s).alertTimeRemaining = s.alertTimeRemaining) := by
  refine ⟨?_, ?_, ?_, ?_, ?_⟩
  · intro loc alertId now s0 hp0 hA0 hc0
    simp [handleEmergencyPress, hp0, hA0, hc0]
  · intro k
    have h := cooldownTick_iter s hc k
    omega
  · intro k
    have h := cooldownTick_iter s hc k
    rw [h.2.1]
    omega
  · intro k hk
    obtain ⟨h1, h2, _⟩ := cooldownTick_iter s hc k
    constructor
    · omega
    · rcases hcan : ((cooldownTick^[k]) s).canTrigger with _ | _
      · rfl
      · rw [hcan] at h2
        simp at h2
        omega
  · intro k
    exact (cooldownTick_iter s hc k).2.2

/-- Home state the moment the sample trigger's cooldown starts. -/
def sampleCooldownState : HomeState :=
  { sampleIdleState with canTrigger := false, cooldownRemaining := 60 }

/-- Claim C5 witness: the cooldown behaviour evaluated on the sample
post-trigger state at ticks 59 and 60, and the trigger exit evaluated on the
sample idle state. -/
theorem cooldown_spec_witness :
    ((handleEmergencyPress true (some sampleLocation) (Except.ok "alert-new") 123
        sampleIdleState).2.cooldownRemaining = 60 ∧
     (handleEmergencyPress true (some sampleLocation) (Except.ok "alert-new") 123
        sampleIdleState).2.canTrigger = false) ∧
    0 < ((cooldownTick^[59]) sampleCooldownState).cooldownRemaining ∧
    ((cooldownTick^[59]) sampleCooldownState).canTrigger = false ∧
    ((cooldownTick^[60]) sampleCooldownState).cooldownRemaining = 60 - 60 ∧
    ((cooldownTick^[60]) sampleCooldownState).canTrigger = true :=
  ⟨(cooldown_spec sampleCooldownState rfl rfl).1 sampleLocation "alert-new" 123
      sampleIdleState rfl rfl rfl,
   ((cooldown_spec sampleCooldownState rfl rfl).2.2.2.1 59 (by omega)).1,
   ((cooldown_spec sampleCooldownState rfl rfl).2.2.2.1 59 (by omega)).2,
   (cooldown_spec sampleCooldownState rfl rfl).2.1 60,
   ((cooldown_spec sampleCooldownState rfl rfl).2.2.1 60).mpr (by omega)⟩

/-- Claim C6: with an active alert that started at start (ms), the countdown
tick run at an elapsed time of e seconds recomputes the remaining time as the
truncated difference ALERT_DURATION - e; while e < 1200 the alert stays
active with exactly that remaining time, and on the first tick with
e ≥ 1200 the active alert, its start time, and the derived trigger state are
cleared locally. -/
theorem auto_expiry_spec (s : HomeState) (start e : Nat) (a : MyAlert)
    (hA : s.myActiveAlert = some a) (hS : s.alertStartTime = some start) :
    (e < 1200 →
       alertCountdownTick (start + 1000 * e) s
         = { s with alertTimeRemaining := 1200 - e }) ∧
    (1200 ≤ e →
       (alertCountdownTick (start + 1000 * e) s).myActiveAlert = none ∧
       (alertCountdownTick (start + 1000 * e) s).alertStartTime = none ∧
       (alertCountdownTick (start + 1000 * e) s).canTrigger = true ∧
       (alertCountdownTick (start + 1000 * e) s).cooldownRemaining = 0 ∧
       (alertCountdownTick (start + 1000 * e) s).alertTimeRemaining = 0) := by
  have helapsed : (start + 1000 * e - start) / 1000 = e := by
    omega
  constructor
  · intro he
    simp only [alertCountdownTick, hA, hS, helapsed, ALERT_DURATION]
    rw [if_neg (by omega : ¬(1200 - e = 0))]
  · intro he
    simp only [alertCountdownTick, hA, hS, helapsed, ALERT_DURATION]
    rw [if_pos (by omega : 1200 - e = 0)]
    simp [storeReset]
    omega

/-- Claim C6 witness: the countdown evaluated on the sample active state
(started at 1000 ms) at 100 s and at 1200 s of elapsed time. -/
theorem auto_expiry_spec_witness :
    alertCountdownTick (1000 + 1000 * 100) sampleActiveState
      = { sampleActiveState with alertTimeRemaining := 1200 - 100 } ∧
    (alertCountdownTick (1000 + 1000 * 1200) sampleActiveState).myActiveAlert = none ∧
    (alertCountdownTick (1000 + 1000 * 1200) sampleActiveState).canTrigger = true :=
  ⟨(auto_expiry_spec sampleActiveState 1000 100
      (MyAlert.mk "alert-mine" 9 7) rfl rfl).1 (by omega),
   ((auto_expiry_spec sampleActiveState 1000 1200
      (MyAlert.mk "alert-mine" 9 7) rfl rfl).2 (by omega)).1,
   ((auto_expiry_spec sampleActiveState 1000 1200
      (MyAlert.mk "alert-mine" 9 7) rfl rfl).2 (by omega)).2.2.1⟩

/-- Claim C9: over bearings in [0,360), getDirectionText always lands in the
eight compass octants; its rounding is half-up, which on nonnegative
bearings is round-half-away-from-zero, so each octant boundary
45k + 22.5 rounds upward into the following octant — in particular 22.5 to
NE and 337.5 to N. -/
theorem compassOctant_spec :
    (∀ b : ℚ, 0 ≤ b → b < 360 →
       getDirectionText b ∈ ["N", "NE", "E", "SE", "S", "SW", "W", "NW"]) ∧
    getDirectionText 22.5 = "NE" ∧
    getDirectionText 337.5 = "N" ∧
    (∀ k : Nat, k < 8 →
       getDirectionText (45 * (k : ℚ) + 22.5)
         = ["NE", "E", "SE", "S", "SW", "W", "NW", "N"].getD k "undefined") := by
  refine ⟨?_, ?_, ?_, ?_⟩
  · intro b hb hb360
    simp only [getDirectionText]
    have hb0 : (0:ℚ) ≤ if b = 0 then 0 else b := by
      split <;> simp [hb]
    have hround : 0 ≤ round ((if b = 0 then (0:ℚ) else b) / 45) := by
      rw [round_eq]
      refine Int.floor_nonneg.mpr ?_
      have hdiv : (0:ℚ) ≤ (if b = 0 then (0:ℚ) else b) / 45 :=
        div_nonneg hb0 (by norm_num)
      linarith
    have htm : (round ((if b = 0 then (0:ℚ) else b) / 45)).tmod 8
        = round ((if b = 0 then (0:ℚ) else b) / 45) % 8 :=
      Int.tmod_eq_emod hround (by norm_num)
    have hlt : ((round ((if b = 0 then (0:ℚ) else b) / 45)).tmod 8).toNat < 8 := by
      rw [htm]
      have h1 := Int.emod_lt_of_pos (round ((if b = 0 then (0:ℚ) else b) / 45))
        (by norm_num : (0:ℤ) < 8)
      have h2 := Int.emod_nonneg (round ((if b = 0 then (0:ℚ) else b) / 45))
        (by norm_num : (8:ℤ) ≠ 0)
      omega
    rw [List.getD_eq_getElem _ "undefined" (by simpa using hlt)]
    exact List.getElem_mem _
  · norm_num [getDirectionText, round_eq] <;> decide
  · norm_num [getDirectionText, round_eq] <;> decide
  · intro k hk
    interval_cases k <;> norm_num [getDirectionText, round_eq] <;> decide

/-- Claim C9 witness: the octant map evaluated at bearing 100 and at the
boundary 45·2 + 22.5 = 112.5. -/
theorem compassOctant_spec_witness :
    getDirectionText 100 ∈ ["N", "NE", "E", "SE", "S", "SW", "W", "NW"] ∧
    getDirectionText (45 * ((2:Nat) : ℚ) + 22.5)
      = ["NE", "E", "SE", "S", "SW", "W", "NW", "N"].getD 2 "undefined" :=
  ⟨compassOctant_spec.1 100 (by norm_num) (by norm_num),
   compassOctant_spec.2.2.2 2 (by norm_num)⟩

namespace Geodesy

open Real

/-- Claim C8: the implemented haversine distance is symmetric in its two
coordinates, and the distance from any coordinate to itself is 0. -/
theorem calculateDistance_symm_self :
    (∀ lat1 lon1 lat2 lon2 : ℝ,
       calculateDistance lat1 lon1 lat2 lon2 = calculateDistance lat2 lon2 lat1 lon1) ∧
    (∀ lat lon : ℝ, calculateDistance lat lon lat lon = 0) := by
  constructor
  · intro lat1 lon1 lat2 lon2
    by_cases h : lat1 = 0 ∨ lon1 = 0 ∨ lat2 = 0 ∨ lon2 = 0
    · have h' : lat2 = 0 ∨ lon2 = 0 ∨ lat1 = 0 ∨ lon1 = 0 := by tauto
      simp only [calculateDistance]
      rw [if_pos h, if_pos h']
    · have h' : ¬(lat2 = 0 ∨ lon2 = 0 ∨ lat1 = 0 ∨ lon1 = 0) := by tauto
      simp only [calculateDistance]
      rw [if_neg h, if_neg h']
      have hsin1 : Real.sin ((lat1 - lat2) * π / 180 / 2)
          = -Real.sin ((lat2 - lat1) * π / 180 / 2) := by
        rw [show (lat1 - lat2) * π / 180 / 2 = -((lat2 - lat1) * π / 180 / 2) by ring,
          Real.sin_neg]
      have hsin2 : Real.sin ((lon1 - lon2) * π / 180 / 2)
          = -Real.sin ((lon2 - lon1) * π / 180 / 2) := by
        rw [show (lon1 - lon2) * π / 180 / 2 = -((lon2 - lon1) * π / 180 / 2) by ring,
          Real.sin_neg]
      have ha : Real.sin ((lat1 - lat2) * π / 180 / 2) * Real.sin ((lat1 - lat2) * π / 180 / 2) +
          Real.cos (lat2 * π / 180) * Real.cos (lat1 * π / 180) *
            Real.sin ((lon1 - lon2) * π / 180 / 2) * Real.sin ((lon1 - lon2) * π / 180 / 2)
          = Real.sin ((lat2 - lat1) * π / 180 / 2) * Real.sin ((lat2 - lat1) * π / 180 / 2) +
          Real.cos (lat1 * π / 180) * Real.cos (lat2 * π / 180) *
            Real.sin ((lon2 - lon1) * π / 180 / 2) * Real.sin ((lon2 - lon1) * π / 180 / 2) := by
        rw [hsin1, hsin2]
        ring
      rw [ha]
  · intro lat lon
    by_cases h : lat = 0 ∨ lon = 0 ∨ lat = 0 ∨ lon = 0
    · simp only [calculateDistance]
      rw [if_pos h]
    · simp only [calculateDistance]
      rw [if_neg h]
      have h1 : (lat - lat) * π / 180 / 2 = 0 := by ring
      have h2 : (lon - lon) * π / 180 / 2 = 0 := by ring
      rw [h1, h2, Real.sin_zero]
      norm_num [atan2, Real.arctan_zero]

/-- Claim C10: both calculateDistance and calculateBearing return 0 as soon
as any one of the four coordinate components equals 0, the guard treating the
numeric value 0 as the invalid case — so points on the equator or the prime
meridian report distance 0 and bearing 0 regardless of the other point. -/
theorem zero_coordinate_guard :
    ∀ lat1 lon1 lat2 lon2 : ℝ,
      lat1 = 0 ∨ lon1 = 0 ∨ lat2 = 0 ∨ lon2 = 0 →
      calculateDistance lat1 lon1 lat2 lon2 = 0 ∧
      calculateBearing lat1 lon1 lat2 lon2 = 0 := by
  intro lat1 lon1 lat2 lon2 h
  constructor
  · simp only [calculateDistance]
    rw [if_pos h]
  · simp only [calculateBearing]
    rw [if_pos h]

/-- Claim C10 witness: two distinct valid points, one exactly on the equator,
report distance 0 and bearing 0. -/
theorem zero_coordinate_guard_witness :
    ((0:ℝ) ≠ 9 ∨ (7.5:ℝ) ≠ 7.5) ∧
    calculateDistance 0 7.5 9 7.5 = 0 ∧
    calculateBearing 0 7.5 9 7.5 = 0 :=
  ⟨Or.inl (by norm_num),
   (zero_coordinate_guard 0 7.5 9 7.5 (Or.inl rfl)).1,
   (zero_coordinate_guard 0 7.5 9 7.5 (Or.inl rfl)).2⟩

end Geodesy

end HumanAlert
